import Mathlib

/-!
Verification of the retry-classification layer of the fabric-samples
pleion-patient-doctor REST API (rest-api-typescript/src/errors.ts) and of the
symptom-transfer chaincode (chaincode-ts/src/symptomTransfer.ts).

The JavaScript regex matching used by the classifier is embedded as a small
backtracking matcher over lists of characters whose alternative order mirrors
the JS engine (alternation priority, greedy quantifiers, leftmost match).
Error values of TypeScript type `unknown` are embedded as an explicit shape
type that records exactly the observations the code makes on them
(typeof checks, instanceof checks, optional-chaining field accesses).
-/

set_option maxRecDepth 16384

/-! ### A backtracking regex matcher (JS semantics) -/

/-- Regular expressions, restricted to the constructs used by errors.ts:
literals, single-character classes, sequencing, alternation, optional
groups and starred character classes. -/
inductive RE where
  | lit : List Char → RE
  | cls : (Char → Bool) → RE
  | seq : RE → RE → RE
  | alt : RE → RE → RE
  | opt : RE → RE
  | star : (Char → Bool) → RE

/-- Drops a literal from the front of the input, or fails. -/
def dropLit : List Char → List Char → Option (List Char)
  | [], input => some input
  | _ :: _, [] => none
  | c :: cs, d :: ds => if c == d then dropLit cs ds else none

/-- Length of the maximal run of characters satisfying p at the head of the
input (what a greedy starred character class consumes first). -/
def charClassRun (p : Char → Bool) : List Char → Nat
  | [] => 0
  | c :: cs => if p c then charClassRun p cs + 1 else 0

/-- Remainders after dropping n, n-1, ..., 1, 0 characters: the backtracking
order of a greedy star (longest first). -/
def dropCandidates (input : List Char) : Nat → List (List Char)
  | 0 => [input]
  | k + 1 => input.drop (k + 1) :: dropCandidates input k

/-- All remainders of the input after a match of the regex at its front, in
JS backtracking priority order (first element is the match the JS engine
commits to at this position). -/
def reMatches : RE → List Char → List (List Char)
  | .lit s, input =>
    match dropLit s input with
    | some rest => [rest]
    | none => []
  | .cls p, input =>
    match input with
    | [] => []
    | c :: rest => if p c then [rest] else []
  | .seq a b, input => (reMatches a input).foldr (fun m acc => reMatches b m ++ acc) []
  | .alt a b, input => reMatches a input ++ reMatches b input
  | .opt a, input => reMatches a input ++ [input]
  | .star p, input => dropCandidates input (charClassRun p input)

/-- The characters consumed by the highest-priority match of the regex at the
front of the suffix, if any. -/
def matchHere (re : RE) (suf : List Char) : Option (List Char) :=
  match reMatches re suf with
  | [] => none
  | rest :: _ => some (suf.take (suf.length - rest.length))

/-- Leftmost match of the regex anywhere in the input, as JS
String.prototype.match reports it in element 0 of its result. -/
def searchAll (re : RE) : List Char → Option (List Char)
  | [] => matchHere re []
  | c :: cs =>
    match matchHere re (c :: cs) with
    | some m => some m
    | none => searchAll re cs

/-- JS message.match(regex) followed by taking element 0 of the result. -/
def jsMatchFirst (re : RE) (s : String) : Option String :=
  (searchAll re s.toList).map String.mk

/-- JS String.prototype.startsWith, evaluated over the character lists. -/
def strStartsWith (s pre : String) : Bool :=
  (dropLit pre.toList s.toList).isSome

/-! ### The shape of `unknown` error values

The code observes an unknown error value only through: nullishness, typeof
checks on the fields name / message / stack / transactionCode, the
optional-chaining path errors -> endorsements -> details, and instanceof
checks against ContractError and TimeoutError.  Each field therefore only
needs to record which of those observations succeed. -/

/-- Outcome of reading a field that the code subjects to a typeof-string or
an identity-with-undefined check. -/
inductive JSStrField where
  | undef
  | null
  | str : String → JSStrField
  | other
deriving DecidableEq

/-- Whether typeof field === 'string'. -/
def JSStrField.isString : JSStrField → Bool
  | .str _ => true
  | _ => false

/-- Whether field === undefined (an absent property reads as undefined). -/
def JSStrField.isUndefined : JSStrField → Bool
  | .undef => true
  | _ => false

/-- The details field of an endorsement: nullish (absent / null / reached
through a primitive), a string, or a non-nullish value without a startsWith
method (on which calling startsWith throws a TypeError). -/
inductive DetailsField where
  | nullish
  | str : String → DetailsField
  | other
deriving DecidableEq

/-- An element of an endorsements array: nullish, or a value whose details
field reads as given. -/
inductive EndorsementElem where
  | nullish
  | withDetails : DetailsField → EndorsementElem
deriving DecidableEq

/-- The endorsements field of an element of the errors array: nullish, an
array, or a non-nullish value without a some method (calling some on it
throws a TypeError). -/
inductive EndorsementsField where
  | nullish
  | arr : List EndorsementElem → EndorsementsField
  | other
deriving DecidableEq

/-- An element of the errors array. -/
inductive ErrorsElem where
  | nullish
  | withEndorsements : EndorsementsField → ErrorsElem
deriving DecidableEq

/-- The errors field of the error value. -/
inductive ErrorsField where
  | nullish
  | arr : List ErrorsElem → ErrorsField
  | other
deriving DecidableEq

/-- Which class of the errors.ts ContractError hierarchy the value is an
instance of, if any (prototype chains are linear, so one case suffices). -/
inductive ContractClass where
  | contractError
  | transactionNotFound
  | symptomExists
  | symptomNotFound
deriving DecidableEq

/-- A non-nullish unknown value, as observed by errors.ts. -/
structure RawError where
  name : JSStrField := .undef
  message : JSStrField := .undef
  stack : JSStrField := .undef
  transactionCode : JSStrField := .undef
  errors : ErrorsField := .nullish
  contractClass : Option ContractClass := none
  isTimeoutInstance : Bool := false
  transactionId : JSStrField := .undef
deriving DecidableEq

/-- An `unknown` error value: none stands for undefined or null. -/
abbrev JSErr : Type := Option RawError

/-! ### errors.ts -/

/-- Enumeration of possible retry actions (errors.ts RetryAction). -/
inductive RetryAction where
  | WithExistingTransactionId
  | WithNewTransactionId
  | None
deriving DecidableEq

/-- Type guard isErrorLike of errors.ts: the value is non-nullish, name and
message are strings, and stack is undefined or a string. -/
def isErrorLike : JSErr → Bool
  | none => false
  | some e =>
    e.name.isString && e.message.isString &&
      (e.stack.isUndefined || e.stack.isString)

/-- The callback of the inner endorsements.some in
isDuplicateTransactionError: endorsement?.details?.startsWith('duplicate
transaction found').  A nullish link yields undefined (falsy); a details
value without startsWith makes the call throw. -/
def checkEndorsement : EndorsementElem → Except Unit Bool
  | .nullish => .ok false
  | .withDetails .nullish => .ok false
  | .withDetails (.str d) => .ok (strStartsWith d "duplicate transaction found")
  | .withDetails .other => .error ()

/-- JS Array.prototype.some over endorsements: stops at the first truthy
callback result, propagates a thrown TypeError. -/
def someEndorsements : List EndorsementElem → Except Unit Bool
  | [] => .ok false
  | e :: rest =>
    match checkEndorsement e with
    | .error u => .error u
    | .ok true => .ok true
    | .ok false => someEndorsements rest

/-- The callback of the outer errors.some: err?.endorsements?.some(...). -/
def checkErrorsElem : ErrorsElem → Except Unit Bool
  | .nullish => .ok false
  | .withEndorsements .nullish => .ok false
  | .withEndorsements (.arr l) => someEndorsements l
  | .withEndorsements .other => .error ()

/-- JS Array.prototype.some over the errors array. -/
def someErrors : List ErrorsElem → Except Unit Bool
  | [] => .ok false
  | e :: rest =>
    match checkErrorsElem e with
    | .error u => .error u
    | .ok true => .ok true
    | .ok false => someErrors rest

/-- isDuplicateTransactionError of errors.ts.  For undefined/null it returns
false; when transactionCode is a string it compares it with DUPLICATE_TXID;
otherwise it inspects endorsementError?.errors?.some(...), where a
non-array errors or endorsements value, or a non-string non-nullish details
value, makes the evaluation throw a TypeError (error case).  The final
JS comparison isDuplicate === true turns an undefined chain into false. -/
def isDuplicateTransactionError : JSErr → Except Unit Bool
  | none => .ok false
  | some e =>
    match e.transactionCode with
    | .str code => .ok (code == "DUPLICATE_TXID")
    | _ =>
      match e.errors with
      | .nullish => .ok false
      | .other => .error ()
      | .arr l => someErrors l

/-- Whether err instanceof ContractError holds. -/
def isContractErrorInstance : JSErr → Bool
  | none => false
  | some e => e.contractClass.isSome

/-- Whether err instanceof TimeoutError holds. -/
def isTimeoutErrorInstance : JSErr → Bool
  | none => false
  | some e => e.isTimeoutInstance

/-- getRetryAction of errors.ts.  isDuplicateTransactionError is evaluated
first; if it throws, the exception propagates out of getRetryAction. -/
def getRetryAction (err : JSErr) : Except Unit RetryAction :=
  match isDuplicateTransactionError err with
  | .error u => .error u
  | .ok isDup =>
    if isDup || isContractErrorInstance err then
      .ok .None
    else if isTimeoutErrorInstance err then
      .ok .WithExistingTransactionId
    else
      .ok .WithNewTransactionId

/-- Character class [tT]. -/
def theClass (c : Char) : Bool := c == 't' || c == 'T'

/-- Character class [aA]. -/
def assetClass (c : Char) : Bool := c == 'a' || c == 'A'

/-- Character class for JS \w: [A-Za-z0-9_]. -/
def isWordChar (c : Char) : Bool := c.isAlphanum || c == '_'

/-- The optional group ([tT]he ) shared by the two business-error regexes. -/
def theOpt : RE := .opt (.seq (.cls theClass) (.lit "he ".toList))

/-- The errors.ts regex ([tT]he )?[aA]sset \w* already exists. -/
def symptomAlreadyExistsRegex : RE :=
  .seq theOpt
    (.seq (.cls assetClass)
      (.seq (.lit "sset ".toList)
        (.seq (.star isWordChar) (.lit " already exists".toList))))

/-- The errors.ts regex ([tT]he )?[aA]sset \w* does not exist. -/
def symptomDoesNotExistRegex : RE :=
  .seq theOpt
    (.seq (.cls assetClass)
      (.seq (.lit "sset ".toList)
        (.seq (.star isWordChar) (.lit " does not exist".toList))))

/-- The errors.ts regex
Failed to get transaction with id [^,]*, error
(?:(?:Entry not found)|(?:no such transaction ID \[[^\]]*\])) in index. -/
def transactionDoesNotExistRegex : RE :=
  .seq (.lit "Failed to get transaction with id ".toList)
    (.seq (.star (fun c => !(c == ',')))
      (.seq (.lit ", error ".toList)
        (.seq (.alt (.lit "Entry not found".toList)
          (.seq (.lit "no such transaction ID [".toList)
            (.seq (.star (fun c => !(c == ']'))) (.lit "]".toList))))
          (.lit " in index".toList))))

/-- matchSymptomAlreadyExistsMessage of errors.ts. -/
def matchSymptomAlreadyExistsMessage (message : String) : Option String :=
  jsMatchFirst symptomAlreadyExistsRegex message

/-- matchSymptomDoesNotExistMessage of errors.ts. -/
def matchSymptomDoesNotExistMessage (message : String) : Option String :=
  jsMatchFirst symptomDoesNotExistRegex message

/-- matchTransactionDoesNotExistMessage of errors.ts. -/
def matchTransactionDoesNotExistMessage (message : String) : Option String :=
  jsMatchFirst transactionDoesNotExistRegex message

/-- Result of handleError: one of the three ContractError subclasses
constructed by it (carrying the matched message and the transaction id), or
the input error returned unchanged. -/
inductive Handled where
  | symptomExists : String → String → Handled
  | symptomNotFound : String → String → Handled
  | transactionNotFound : String → String → Handled
  | raw : JSErr → Handled
deriving DecidableEq

/-- handleError of errors.ts: for error-like inputs, try the three message
patterns in order and wrap the first match in the corresponding
ContractError subclass; otherwise return the error unchanged. -/
def handleError (transactionId : String) (err : JSErr) : Handled :=
  if isErrorLike err then
    match err with
    | some e =>
      match e.message with
      | .str m =>
        match matchSymptomAlreadyExistsMessage m with
        | some s => .symptomExists s transactionId
        | none =>
          match matchSymptomDoesNotExistMessage m with
          | some s => .symptomNotFound s transactionId
          | none =>
            match matchTransactionDoesNotExistMessage m with
            | some s => .transactionNotFound s transactionId
            | none => .raw err
      | _ => .raw err
    | none => .raw err
  else
    .raw err

/-- The unknown-value shape of a ContractError subclass instance as its
errors.ts constructor builds it: the subclass name, the matched message,
the transaction id, and a place in the ContractError prototype chain. -/
def contractErrJS (n m tid : String) (c : ContractClass) : RawError :=
  { name := .str n, message := .str m, stack := .str "",
    transactionCode := .undef, errors := .nullish,
    contractClass := some c, isTimeoutInstance := false,
    transactionId := .str tid }

/-- The value handleError's result denotes when it flows back into
getRetryAction as an unknown error. -/
def toJSErr : Handled → JSErr
  | .symptomExists m tid => some (contractErrJS "SymptomExistsError" m tid .symptomExists)
  | .symptomNotFound m tid => some (contractErrJS "SymptomNotFoundError" m tid .symptomNotFound)
  | .transactionNotFound m tid => some (contractErrJS "TransactionNotFoundError" m tid .transactionNotFound)
  | .raw e => e

/-- A plain Error value (as new Error(msg) produces) with the given message. -/
def mkErr (msg : String) : RawError :=
  { name := .str "Error", message := .str msg, stack := .str "",
    transactionCode := .undef, errors := .nullish,
    contractClass := none, isTimeoutInstance := false,
    transactionId := .undef }

/-! ### symptomTransfer.ts (chaincode) -/

/-- A symptom record as the chaincode stores it (CreateSymptom and
UpdateSymptom build it without a docType; InitLedger sets docType). -/
structure Symptom where
  ID : String
  Comment : String
  Owner : String
  SymptomTimestamp : Int
  docType : Option String := none
deriving DecidableEq

/-- The world state: an association of keys to the stored symptom records
(the JSON buffers put by putState, modelled parsed; an absent or empty
buffer is none). -/
abbrev WorldState : Type := List (String × Symptom)

/-- ctx.stub.getState. -/
def getState : WorldState → String → Option Symptom
  | [], _ => none
  | (k, v) :: rest, id => if k == id then some v else getState rest id

/-- ctx.stub.putState. -/
def putState (st : WorldState) (id : String) (s : Symptom) : WorldState :=
  (id, s) :: st

/-- ctx.stub.deleteState. -/
def deleteState (st : WorldState) (id : String) : WorldState :=
  st.filter (fun p => !(p.1 == id))

/-- The error message thrown by ReadSymptom, UpdateSymptom and DeleteSymptom
for a missing symptom: the template literal The symptom id does not exist. -/
def symptomDoesNotExistMessage (id : String) : String :=
  "The symptom " ++ id ++ " does not exist"

/-- CreateSymptom of symptomTransfer.ts: puts the new record under id with
no existence check (the Except layer records that the method can in
principle reject; this body never does). -/
def CreateSymptom (st : WorldState) (id comment owner : String)
    (symptomTimestamp : Int) : Except String WorldState :=
  .ok (putState st id
    { ID := id, Comment := comment, Owner := owner,
      SymptomTimestamp := symptomTimestamp })

/-- SymptomExists of symptomTransfer.ts. -/
def SymptomExists (st : WorldState) (id : String) : Bool :=
  (getState st id).isSome

/-- ReadSymptom of symptomTransfer.ts. -/
def ReadSymptom (st : WorldState) (id : String) : Except String Symptom :=
  match getState st id with
  | none => .error (symptomDoesNotExistMessage id)
  | some s => .ok s

/-- UpdateSymptom of symptomTransfer.ts. -/
def UpdateSymptom (st : WorldState) (id comment owner : String)
    (symptomTimestamp : Int) : Except String WorldState :=
  if SymptomExists st id then
    .ok (putState st id
      { ID := id, Comment := comment, Owner := owner,
        SymptomTimestamp := symptomTimestamp })
  else
    .error (symptomDoesNotExistMessage id)

/-- DeleteSymptom of symptomTransfer.ts. -/
def DeleteSymptom (st : WorldState) (id : String) : Except String WorldState :=
  if SymptomExists st id then
    .ok (deleteState st id)
  else
    .error (symptomDoesNotExistMessage id)

/-! ### Spec-modelled submission worker and retry-policy engine

The submission worker and its attempt accounting live in jobs.ts of the
repository, which is not among the provided sources; only errors.ts (the
classifier and per-error retry action) is.  The definitions in this
namespace are therefore modelled from the specification and delegate to the
embedded errors.ts functions where the spec does. -/

namespace SpecModel

/-- Modelled from the spec: the closed error-kind taxonomy of section 7
(jobs.ts, which realizes attempt accounting, is not among the sources). -/
inductive ErrorKind where
  | AlreadyExists
  | NotFound
  | TransactionNotFound
  | DuplicateTransaction
  | Timeout
  | TransientInfrastructure
  | RetriesExhausted
  | Cancelled
deriving DecidableEq

/-- Modelled from the spec: the three decisions of the retry policy engine. -/
inductive Action where
  | Stop
  | RetrySameIdentity
  | RetryNewIdentity
deriving DecidableEq

/-- Modelled from the spec: decide(errorKind, attemptCount, maxAttempts) of
section 4.2, rules evaluated in order (the attempt cap first, then the
kind table; jobs.ts, which realizes the cap, is not among the sources). -/
def decide (kind : ErrorKind) (attemptCount maxAttempts : Nat) : Action :=
  if attemptCount ≥ maxAttempts then
    .Stop
  else
    match kind with
    | .DuplicateTransaction | .AlreadyExists | .NotFound | .TransactionNotFound => .Stop
    | .Timeout => .RetrySameIdentity
    | _ => .RetryNewIdentity

/-- Outcome of one submit attempt against the ledger. -/
inductive SubmitOutcome where
  | success
  | failure : JSErr → SubmitOutcome

/-- Terminal observation of a job processed by the worker. -/
inductive WorkerResult where
  | succeeded : Nat → List String → WorkerResult
  | failed : Handled → Nat → List String → WorkerResult
  | retriesExhausted : Nat → List String → WorkerResult
  | workerError : WorkerResult
deriving DecidableEq

/-- Modelled from the spec: the submission worker loop of section 4.4
(jobs.ts is not among the sources).  Each attempt submits, and on failure
classifies with handleError and decides with getRetryAction from errors.ts:
None records the classified failure, WithExistingTransactionId retries
under the same transaction id, WithNewTransactionId appends a fresh id;
when the remaining attempt budget is exhausted the job fails terminally. -/
def runJob (outcome : Nat → SubmitOutcome) (newId : Nat → String) :
    Nat → Nat → String → List String → WorkerResult
  | 0, attemptsDone, _, txIds => .retriesExhausted attemptsDone txIds
  | remaining + 1, attemptsDone, curTx, txIds =>
    match outcome attemptsDone with
    | .success => .succeeded (attemptsDone + 1) txIds
    | .failure err =>
      let h := handleError curTx err
      match getRetryAction (toJSErr h) with
      | .error _ => .workerError
      | .ok .None => .failed h (attemptsDone + 1) txIds
      | .ok .WithExistingTransactionId =>
        runJob outcome newId remaining (attemptsDone + 1) curTx txIds
      | .ok .WithNewTransactionId =>
        let t := newId (attemptsDone + 1)
        runJob outcome newId remaining (attemptsDone + 1) t (txIds ++ [t])

end SpecModel

/-! ### Soundness of the matcher: any reported match is an infix of the
input accepted by the regex -/

/-- Language of a regex, as a predicate on the exact character list a match
consumes. -/
inductive Accepts : RE → List Char → Prop where
  | lit (s : List Char) : Accepts (.lit s) s
  | cls {p : Char → Bool} {c : Char} : p c = true → Accepts (.cls p) [c]
  | seqA {a b : RE} {u v : List Char} :
      Accepts a u → Accepts b v → Accepts (.seq a b) (u ++ v)
  | altL {a b : RE} {u : List Char} : Accepts a u → Accepts (.alt a b) u
  | altR {a b : RE} {u : List Char} : Accepts b u → Accepts (.alt a b) u
  | optSome {a : RE} {u : List Char} : Accepts a u → Accepts (.opt a) u
  | optNone {a : RE} : Accepts (.opt a) []
  | starA {p : Char → Bool} {u : List Char} :
      (∀ c ∈ u, p c = true) → Accepts (.star p) u

theorem dropLit_sound : ∀ (s input rest : List Char),
    dropLit s input = some rest → input = s ++ rest := by
  intro s
  induction s with
  | nil =>
    intro input rest h
    simp [dropLit] at h
    simp [h]
  | cons c cs ih =>
    intro input rest h
    cases input with
    | nil => simp [dropLit] at h
    | cons d ds =>
      by_cases hc : (c == d) = true
      · have hcd : c = d := by simpa using hc
        simp only [dropLit, hc, if_true] at h
        subst hcd
        simp [ih ds rest h]
      · simp only [dropLit, hc, if_false] at h
        simp at hc
        simp [hc] at h

theorem dropLit_complete : ∀ (s t : List Char), dropLit s (s ++ t) = some t := by
  intro s
  induction s with
  | nil => intro t; rfl
  | cons c cs ih => intro t; simp [dropLit, ih]

/-- Decidable contiguous-substring test. -/
def containsSub (pat : List Char) : List Char → Bool
  | [] => (dropLit pat []).isSome
  | c :: cs => (dropLit pat (c :: cs)).isSome || containsSub pat cs

theorem containsSub_of_head (pat l : List Char)
    (h : (dropLit pat l).isSome = true) : containsSub pat l = true := by
  cases l with
  | nil => simpa [containsSub] using h
  | cons c cs => simp [containsSub, h]

theorem containsSub_of_parts : ∀ (pat s t l : List Char),
    l = s ++ (pat ++ t) → containsSub pat l = true := by
  intro pat s
  induction s with
  | nil =>
    intro t l h
    simp at h
    subst h
    exact containsSub_of_head pat (pat ++ t) (by simp [dropLit_complete])
  | cons c s' ih =>
    intro t l h
    subst h
    have hih := ih t (s' ++ (pat ++ t)) rfl
    simp [containsSub, List.append_eq, hih]

theorem mem_foldrJoin {f : List Char → List (List Char)} :
    ∀ (ls : List (List Char)) (x : List Char),
      x ∈ ls.foldr (fun m acc => f m ++ acc) [] → ∃ m ∈ ls, x ∈ f m := by
  intro ls
  induction ls with
  | nil => intro x h; simp at h
  | cons a as ih =>
    intro x h
    simp only [List.foldr_cons, List.mem_append] at h
    cases h with
    | inl h => exact ⟨a, by simp, h⟩
    | inr h =>
      obtain ⟨m, hm, hx⟩ := ih x h
      exact ⟨m, by simp [hm], hx⟩

theorem mem_dropCandidates : ∀ (input : List Char) (n : Nat) (rest : List Char),
    rest ∈ dropCandidates input n → ∃ k, k ≤ n ∧ rest = input.drop k := by
  intro input n
  induction n with
  | zero =>
    intro rest h
    simp [dropCandidates] at h
    exact ⟨0, Nat.le_refl 0, by simp [h]⟩
  | succ k ih =>
    intro rest h
    simp only [dropCandidates, List.mem_cons] at h
    cases h with
    | inl h => exact ⟨k + 1, Nat.le_refl _, h⟩
    | inr h =>
      obtain ⟨j, hj, hr⟩ := ih rest h
      exact ⟨j, Nat.le_succ_of_le hj, hr⟩

theorem charClassRun_take : ∀ (p : Char → Bool) (input : List Char) (k : Nat),
    k ≤ charClassRun p input → ∀ c ∈ input.take k, p c = true := by
  intro p input
  induction input with
  | nil => intro k hk c hc; simp at hc
  | cons d ds ih =>
    intro k hk c hc
    cases k with
    | zero => simp at hc
    | succ j =>
      by_cases hd : p d = true
      · simp only [charClassRun, hd, if_true] at hk
        simp only [List.take, List.mem_cons] at hc
        cases hc with
        | inl h => subst h; exact hd
        | inr h => exact ih j (Nat.le_of_succ_le_succ hk) c h
      · simp [charClassRun, hd] at hk

theorem take_len_append : ∀ (a b : List Char), (a ++ b).take a.length = a := by
  intro a
  induction a with
  | nil => intro b; rfl
  | cons c cs ih => intro b; simp [List.take, ih]

theorem reMatches_sound : ∀ (re : RE) (input rest : List Char),
    rest ∈ reMatches re input → ∃ pre, input = pre ++ rest ∧ Accepts re pre := by
  intro re
  induction re with
  | lit s =>
    intro input rest h
    simp only [reMatches] at h
    cases hd : dropLit s input with
    | none => rw [hd] at h; simp at h
    | some r =>
      rw [hd] at h
      simp at h
      subst h
      exact ⟨s, dropLit_sound s input rest hd, Accepts.lit s⟩
  | cls p =>
    intro input rest h
    cases input with
    | nil => simp [reMatches] at h
    | cons c cs =>
      by_cases hp : p c = true
      · simp only [reMatches, hp, if_true, List.mem_singleton] at h
        subst h
        exact ⟨[c], rfl, Accepts.cls hp⟩
      · simp [reMatches, hp] at h
  | seq a b iha ihb =>
    intro input rest h
    simp only [reMatches] at h
    obtain ⟨mid, hmid, hrest⟩ := mem_foldrJoin (reMatches a input) rest h
    obtain ⟨p1, hi, ha⟩ := iha input mid hmid
    obtain ⟨p2, hm, hb⟩ := ihb mid rest hrest
    exact ⟨p1 ++ p2, by rw [hi, hm, List.append_assoc], Accepts.seqA ha hb⟩
  | alt a b iha ihb =>
    intro input rest h
    simp only [reMatches, List.mem_append] at h
    cases h with
    | inl h =>
      obtain ⟨p1, hi, ha⟩ := iha input rest h
      exact ⟨p1, hi, Accepts.altL ha⟩
    | inr h =>
      obtain ⟨p1, hi, hb⟩ := ihb input rest h
      exact ⟨p1, hi, Accepts.altR hb⟩
  | opt a iha =>
    intro input rest h
    simp only [reMatches, List.mem_append, List.mem_singleton] at h
    cases h with
    | inl h =>
      obtain ⟨p1, hi, ha⟩ := iha input rest h
      exact ⟨p1, hi, Accepts.optSome ha⟩
    | inr h => exact ⟨[], by simp [h], Accepts.optNone⟩
  | star p =>
    intro input rest h
    simp only [reMatches] at h
    obtain ⟨k, hk, hr⟩ := mem_dropCandidates input (charClassRun p input) rest h
    refine ⟨input.take k, ?_, Accepts.starA (charClassRun_take p input k hk)⟩
    rw [hr, List.take_append_drop]

theorem matchHere_sound : ∀ (re : RE) (suf m : List Char),
    matchHere re suf = some m → ∃ post, suf = m ++ post ∧ Accepts re m := by
  intro re suf m h
  unfold matchHere at h
  cases hl : reMatches re suf with
  | nil => rw [hl] at h; simp at h
  | cons rest tail =>
    rw [hl] at h
    simp only [Option.some.injEq] at h
    obtain ⟨pre, hsuf, hacc⟩ :=
      reMatches_sound re suf rest (by rw [hl]; exact List.mem_cons_self _ _)
    have hlen : (pre ++ rest).length - rest.length = pre.length := by simp
    rw [hsuf, hlen, take_len_append] at h
    subst h
    exact ⟨rest, hsuf, hacc⟩

theorem searchAll_sound (re : RE) : ∀ (cs m : List Char),
    searchAll re cs = some m →
      ∃ pre post, cs = pre ++ (m ++ post) ∧ Accepts re m := by
  intro cs
  induction cs with
  | nil =>
    intro m h
    simp only [searchAll] at h
    obtain ⟨post, hsuf, hacc⟩ := matchHere_sound re [] m h
    exact ⟨[], post, by simpa using hsuf, hacc⟩
  | cons c cs ih =>
    intro m h
    simp only [searchAll] at h
    cases hm : matchHere re (c :: cs) with
    | some m0 =>
      rw [hm] at h
      simp only [Option.some.injEq] at h
      subst h
      obtain ⟨post, hsuf, hacc⟩ := matchHere_sound re (c :: cs) m0 hm
      exact ⟨[], post, by simpa using hsuf, hacc⟩
    | none =>
      rw [hm] at h
      obtain ⟨pre, post, hcs, hacc⟩ := ih m h
      exact ⟨c :: pre, post, by simp [hcs], hacc⟩

theorem accepts_asset_shape (tail : RE) (w : List Char)
    (h : Accepts (.seq theOpt (.seq (.cls assetClass)
        (.seq (.lit "sset ".toList) tail))) w) :
    ∃ u c v, w = u ++ (c :: ('s' :: 's' :: 'e' :: 't' :: ' ' :: v))
      ∧ (c = 'a' ∨ c = 'A') := by
  cases h with
  | seqA h1 h2 =>
    rename_i u v
    cases h2 with
    | seqA h21 h22 =>
      rename_i v1 v2
      cases h21 with
      | cls hp =>
        rename_i c
        cases h22 with
        | seqA h221 h222 =>
          rename_i v3 v4
          cases h221 with
          | lit =>
            refine ⟨u, c, v4, ?_, ?_⟩
            · rfl
            · have hp2 : (c == 'a' || c == 'A') = true := hp
              simpa [Bool.or_eq_true, beq_iff_eq] using hp2

theorem search_asset_none (tail : RE) (cs : List Char)
    (h1 : containsSub "asset".toList cs = false)
    (h2 : containsSub "Asset".toList cs = false) :
    searchAll (.seq theOpt (.seq (.cls assetClass)
      (.seq (.lit "sset ".toList) tail))) cs = none := by
  cases hE : searchAll (.seq theOpt (.seq (.cls assetClass)
      (.seq (.lit "sset ".toList) tail))) cs with
  | none => rfl
  | some m =>
    exfalso
    obtain ⟨pre, post, hcs, hacc⟩ := searchAll_sound _ cs m hE
    obtain ⟨u, c, v, hw, hc⟩ := accepts_asset_shape tail m hacc
    subst hw
    have hA : "asset".toList = ['a', 's', 's', 'e', 't'] := rfl
    have hAU : "Asset".toList = ['A', 's', 's', 'e', 't'] := rfl
    cases hc with
    | inl hca =>
      subst hca
      have hsub : containsSub "asset".toList cs = true := by
        apply containsSub_of_parts _ (pre ++ u) ((' ' :: v) ++ post) cs
        rw [hcs, hA]
        simp
      rw [hsub] at h1
      exact Bool.noConfusion h1
    | inr hcA =>
      subst hcA
      have hsub : containsSub "Asset".toList cs = true := by
        apply containsSub_of_parts _ (pre ++ u) ((' ' :: v) ++ post) cs
        rw [hcs, hAU]
        simp
      rw [hsub] at h2
      exact Bool.noConfusion h2

theorem accepts_litHead (L : List Char) (tail : RE) (w : List Char)
    (h : Accepts (.seq (.lit L) tail) w) : ∃ v, w = L ++ v := by
  cases h with
  | seqA h1 h2 =>
    cases h1 with
    | lit => exact ⟨_, rfl⟩

theorem search_litHead_none (L : List Char) (tail : RE) (cs : List Char)
    (h : containsSub L cs = false) :
    searchAll (.seq (.lit L) tail) cs = none := by
  cases hE : searchAll (.seq (.lit L) tail) cs with
  | none => rfl
  | some m =>
    exfalso
    obtain ⟨pre, post, hcs, hacc⟩ := searchAll_sound _ cs m hE
    obtain ⟨v, hw⟩ := accepts_litHead L tail m hacc
    subst hw
    have hsub : containsSub L cs = true := by
      apply containsSub_of_parts L pre (v ++ post) cs
      rw [hcs]
      simp
    rw [hsub] at h
    exact Bool.noConfusion h

theorem matchSymptomAlreadyExistsMessage_none (msg : String)
    (h1 : containsSub "asset".toList msg.toList = false)
    (h2 : containsSub "Asset".toList msg.toList = false) :
    matchSymptomAlreadyExistsMessage msg = none := by
  unfold matchSymptomAlreadyExistsMessage jsMatchFirst symptomAlreadyExistsRegex
  rw [search_asset_none _ _ h1 h2]
  rfl

theorem matchSymptomDoesNotExistMessage_none (msg : String)
    (h1 : containsSub "asset".toList msg.toList = false)
    (h2 : containsSub "Asset".toList msg.toList = false) :
    matchSymptomDoesNotExistMessage msg = none := by
  unfold matchSymptomDoesNotExistMessage jsMatchFirst symptomDoesNotExistRegex
  rw [search_asset_none _ _ h1 h2]
  rfl

theorem matchTransactionDoesNotExistMessage_none (msg : String)
    (h : containsSub "Failed to get transaction with id ".toList msg.toList = false) :
    matchTransactionDoesNotExistMessage msg = none := by
  unfold matchTransactionDoesNotExistMessage jsMatchFirst transactionDoesNotExistRegex
  rw [search_litHead_none _ _ _ h]
  rfl

/-! ### Concrete error values used in witnesses and counterexamples -/

/-- A TimeoutError instance as fabric-network raises on a commit timeout. -/
def timeoutErr : RawError :=
  { name := .str "TimeoutError", message := .str "Transaction commit timed out",
    stack := .str "", isTimeoutInstance := true }

/-- A commit failure whose transaction code marks a duplicate transaction. -/
def dupCodeErr : RawError :=
  { transactionCode := .str "DUPLICATE_TXID" }

/-- A plain infrastructure error whose message matches no pattern. -/
def unmatchedErr : RawError := mkErr "connection refused"

/-- A plain error with a different unmatched message, failing the first
submit attempt of a transient-failure scenario. -/
def transientErr : RawError := mkErr "no endorsement plan available"

/-- An error carrying both a non-duplicate transaction code and a nested
endorsement detail that signals a duplicate transaction. -/
def conflictingDupErr : RawError :=
  { transactionCode := .str "MVCC_READ_CONFLICT",
    errors := .arr [.withEndorsements (.arr
      [.withDetails (.str "duplicate transaction found [tx0]")])] }

/-- A non-Error object whose errors field is a non-array value, on which
the endorsement scan of isDuplicateTransactionError throws. -/
def malformedErr : RawError := { errors := .other }

/-- The submit failure of the already-exists scenario. -/
def alreadyExistsErr : JSErr := some (mkErr "the asset symptom1 already exists")

/-! ### Claims about the retry policy (errors.ts getRetryAction) -/

/-- C1: when the current attempt count has reached the configured maximum,
the retry-policy decision returns Stop regardless of the error kind.
Modelled from the spec: the attempt cap is enforced by the submission
worker (jobs.ts), which is not among the sources; SpecModel.decide realizes
the rule table of spec section 4.2. -/
theorem decide_stop_at_max (kind : SpecModel.ErrorKind) (attemptCount maxAttempts : Nat)
    (h : attemptCount ≥ maxAttempts) :
    SpecModel.decide kind attemptCount maxAttempts = .Stop := by
  simp [SpecModel.decide, h]

/-- Witness for C1 at kind Timeout with attemptCount = maxAttempts = 5. -/
theorem decide_stop_at_max_witness :
    SpecModel.decide .Timeout 5 5 = .Stop :=
  decide_stop_at_max .Timeout 5 5 (by decide)

/-- C2 counterexample: the duplicate-submission indicator exactly as the
claim words it — a transactionCode equal to DUPLICATE_TXID, or some nested
endorsement detail string starting with duplicate transaction found. -/
def claimDuplicateIndicator : JSErr → Bool
  | none => false
  | some e =>
    (match e.transactionCode with
     | .str c => c == "DUPLICATE_TXID"
     | _ => false)
    ||
    (match e.errors with
     | .arr l =>
       l.any fun el =>
         match el with
         | .withEndorsements (.arr ends) =>
           ends.any fun en =>
             match en with
             | .withDetails (.str d) => strStartsWith d "duplicate transaction found"
             | _ => false
         | _ => false
     | _ => false)

/-- C2 counterexample: an error that carries the nested endorsement-detail
duplicate indicator, yet is retried with a new transaction id, because a
string transactionCode different from DUPLICATE_TXID makes the code skip
the endorsement scan entirely. -/
theorem getRetryAction_dup_indicator_counterexample :
    claimDuplicateIndicator (some conflictingDupErr) = true
    ∧ getRetryAction (some conflictingDupErr) = .ok .WithNewTransactionId := by
  exact ⟨by decide, by rfl⟩

/-- C2 amended: whenever isDuplicateTransactionError evaluates without
throwing and returns true — transactionCode equal to DUPLICATE_TXID, or no
string transactionCode and a nested endorsement detail starting with
duplicate transaction found — or the error is a ContractError instance,
getRetryAction returns None. -/
theorem getRetryAction_none_for_dup_or_contract (err : JSErr) (b : Bool)
    (h : isDuplicateTransactionError err = .ok b)
    (hbc : b = true ∨ isContractErrorInstance err = true) :
    getRetryAction err = .ok .None := by
  rcases hbc with hb | hc
  · subst hb
    simp [getRetryAction, h]
  · simp [getRetryAction, h, hc]

/-- Witness for the amended C2 at a DUPLICATE_TXID transaction code. -/
theorem getRetryAction_none_for_dup_or_contract_witness :
    getRetryAction (some dupCodeErr) = .ok .None :=
  getRetryAction_none_for_dup_or_contract (some dupCodeErr) true rfl (Or.inl rfl)

/-- C3: a TimeoutError instance that is not recognized as a duplicate
transaction (the duplicate check returns false) and is not a ContractError
instance is retried with the existing transaction id. -/
theorem getRetryAction_timeout_same_id (err : JSErr)
    (ht : isTimeoutErrorInstance err = true)
    (hd : isDuplicateTransactionError err = .ok false)
    (hc : isContractErrorInstance err = false) :
    getRetryAction err = .ok .WithExistingTransactionId := by
  simp [getRetryAction, hd, hc, ht]

/-- Witness for C3 at a commit-timeout error. -/
theorem getRetryAction_timeout_same_id_witness :
    getRetryAction (some timeoutErr) = .ok .WithExistingTransactionId :=
  getRetryAction_timeout_same_id (some timeoutErr) rfl rfl rfl

/-- C4: an error that is not recognized as a duplicate transaction (the
duplicate check returns false), is not a ContractError instance and is not
a TimeoutError instance is retried with a new transaction id. -/
theorem getRetryAction_other_new_id (err : JSErr)
    (hd : isDuplicateTransactionError err = .ok false)
    (hc : isContractErrorInstance err = false)
    (ht : isTimeoutErrorInstance err = false) :
    getRetryAction err = .ok .WithNewTransactionId := by
  simp [getRetryAction, hd, hc, ht]

/-- Witness for C4 at an unrecognized endorsement failure. -/
theorem getRetryAction_other_new_id_witness :
    getRetryAction (some transientErr) = .ok .WithNewTransactionId :=
  getRetryAction_other_new_id (some transientErr) rfl rfl rfl

/-! ### Claims about the classifier (errors.ts handleError) -/

/-- The four shapes a handleError result can take: one of the three
ContractError wrappers carrying the caller's transaction id, or the input
returned unchanged. -/
theorem handleError_shape (tid : String) (err : JSErr) :
    (∃ s, handleError tid err = .symptomExists s tid)
    ∨ (∃ s, handleError tid err = .symptomNotFound s tid)
    ∨ (∃ s, handleError tid err = .transactionNotFound s tid)
    ∨ handleError tid err = .raw err := by
  unfold handleError
  repeat' split
  all_goals first
    | exact Or.inl ⟨_, rfl⟩
    | exact Or.inr (Or.inl ⟨_, rfl⟩)
    | exact Or.inr (Or.inr (Or.inl ⟨_, rfl⟩))
    | exact Or.inr (Or.inr (Or.inr rfl))

/-- C5: handleError consults the business-error patterns in priority order
already-exists, does-not-exist, transaction-not-found; the first match
determines the classified error and later patterns are not consulted. -/
theorem handleError_pattern_priority (e : RawError) (tid m : String)
    (hE : isErrorLike (some e) = true) (hm : e.message = .str m) :
    (∀ s, matchSymptomAlreadyExistsMessage m = some s →
      handleError tid (some e) = .symptomExists s tid)
    ∧ (matchSymptomAlreadyExistsMessage m = none →
      ∀ s, matchSymptomDoesNotExistMessage m = some s →
        handleError tid (some e) = .symptomNotFound s tid)
    ∧ (matchSymptomAlreadyExistsMessage m = none →
      matchSymptomDoesNotExistMessage m = none →
      ∀ s, matchTransactionDoesNotExistMessage m = some s →
        handleError tid (some e) = .transactionNotFound s tid) := by
  refine ⟨?_, ?_, ?_⟩
  · intro s h1
    simp [handleError, hE, hm, h1]
  · intro h1 s h2
    simp [handleError, hE, hm, h1, h2]
  · intro h1 h2 s h3
    simp [handleError, hE, hm, h1, h2, h3]

/-- Witness for C5 at a message that matches both the already-exists and
the does-not-exist patterns: the already-exists pattern wins. -/
theorem handleError_pattern_priority_witness :
    handleError "tx1"
      (some (mkErr "the asset a1 already exists; the asset a1 does not exist"))
      = .symptomExists "the asset a1 already exists" "tx1" := by
  exact (handleError_pattern_priority
    (mkErr "the asset a1 already exists; the asset a1 does not exist")
    "tx1" "the asset a1 already exists; the asset a1 does not exist"
    (by rfl) rfl).1 "the asset a1 already exists" (by rfl)

/-- C6 counterexample: an error-like failure whose message matches no
pattern is returned by handleError unchanged — the raw error escapes the
classifier instead of being normalized to a kind. -/
theorem handleError_raw_escape_counterexample :
    isErrorLike (some unmatchedErr) = true
    ∧ handleError "tx1" (some unmatchedErr) = .raw (some unmatchedErr) := by
  exact ⟨by rfl, by rfl⟩

/-- C6 amended: for every error-like input whose message matches none of
the business-error patterns, handleError returns the raw error unchanged
(the classifier does not wrap it in any kind); such a failure is treated
as retriable only by getRetryAction, which returns WithNewTransactionId
when the error is additionally neither a recognized duplicate nor a
ContractError nor a TimeoutError instance. -/
theorem handleError_unmatched_raw (e : RawError) (tid m : String)
    (hE : isErrorLike (some e) = true) (hm : e.message = .str m)
    (h1 : matchSymptomAlreadyExistsMessage m = none)
    (h2 : matchSymptomDoesNotExistMessage m = none)
    (h3 : matchTransactionDoesNotExistMessage m = none) :
    handleError tid (some e) = .raw (some e)
    ∧ (isDuplicateTransactionError (some e) = .ok false →
      e.contractClass = none → e.isTimeoutInstance = false →
      getRetryAction (some e) = .ok .WithNewTransactionId) := by
  constructor
  · simp [handleError, hE, hm, h1, h2, h3]
  · intro hd hc ht
    simp [getRetryAction, hd, isContractErrorInstance, hc, isTimeoutErrorInstance, ht]

/-- Witness for the amended C6 at the unmatched connection-refused error. -/
theorem handleError_unmatched_raw_witness :
    handleError "tx1" (some unmatchedErr) = .raw (some unmatchedErr)
    ∧ getRetryAction (some unmatchedErr) = .ok .WithNewTransactionId := by
  have h := handleError_unmatched_raw unmatchedErr "tx1" "connection refused"
    (by rfl) rfl (by rfl) (by rfl) (by rfl)
  exact ⟨h.1, h.2 rfl rfl rfl⟩

/-- C7 counterexample: a non-Error object whose errors field is not an
array makes getRetryAction throw a TypeError (the duplicate-transaction
scan calls some on a value that has none) instead of returning an action. -/
theorem getRetryAction_throws_counterexample :
    getRetryAction (some malformedErr) = .error () := by rfl

/-- C7 amended: handleError is total — every input yields exactly one of
its four result shapes — and getRetryAction returns exactly one of the
three actions for every input on which the duplicate-transaction scan
evaluates without throwing; on malformed endorsement structures it throws
a TypeError instead. -/
theorem classifier_and_policy_total (tid : String) (err : JSErr) (b : Bool)
    (h : isDuplicateTransactionError err = .ok b) :
    (getRetryAction err = .ok .None
      ∨ getRetryAction err = .ok .WithExistingTransactionId
      ∨ getRetryAction err = .ok .WithNewTransactionId)
    ∧ ((∃ s, handleError tid err = .symptomExists s tid)
      ∨ (∃ s, handleError tid err = .symptomNotFound s tid)
      ∨ (∃ s, handleError tid err = .transactionNotFound s tid)
      ∨ handleError tid err = .raw err) := by
  refine ⟨?_, handleError_shape tid err⟩
  simp only [getRetryAction, h]
  cases hb : b || isContractErrorInstance err with
  | true => simp [hb]
  | false =>
    cases ht : isTimeoutErrorInstance err with
    | true => simp [hb, ht]
    | false => simp [hb, ht]

/-- Witness for the amended C7 at the undefined error value. -/
theorem classifier_and_policy_total_witness :
    (getRetryAction none = .ok .None
      ∨ getRetryAction none = .ok .WithExistingTransactionId
      ∨ getRetryAction none = .ok .WithNewTransactionId)
    ∧ ((∃ s, handleError "tx1" none = .symptomExists s "tx1")
      ∨ (∃ s, handleError "tx1" none = .symptomNotFound s "tx1")
      ∨ (∃ s, handleError "tx1" none = .transactionNotFound s "tx1")
      ∨ handleError "tx1" none = .raw none) :=
  classifier_and_policy_total "tx1" none false rfl

/-! ### Scenario and chaincode claims -/

/-- C8: the message the asset symptom1 already exists is classified as a
SymptomExistsError (the AlreadyExists kind); the retry policy stops on the
classified error; the spec-modelled decide for (AlreadyExists, 1, 5) stops;
and a worker run with attempt budget 5 whose first submit fails with that
message ends Failed with that kind after exactly one attempt.  The worker
loop is modelled from the spec (jobs.ts is not among the sources); the
classifier and policy steps are the embedded errors.ts functions. -/
theorem alreadyExists_scenario :
    handleError "tx0" alreadyExistsErr
      = .symptomExists "the asset symptom1 already exists" "tx0"
    ∧ getRetryAction (toJSErr (handleError "tx0" alreadyExistsErr)) = .ok .None
    ∧ SpecModel.decide .AlreadyExists 1 5 = .Stop
    ∧ SpecModel.runJob (fun _ => .failure alreadyExistsErr)
        (fun n => "tx" ++ toString n) 5 0 "tx0" ["tx0"]
      = .failed (.symptomExists "the asset symptom1 already exists" "tx0") 1 ["tx0"] := by
  refine ⟨by rfl, by rfl, by rfl, by rfl⟩

/-- C9 counterexample: for the symptom id (asset foo) the chaincode missing
message IS matched by the does-not-exist pattern, handleError wraps it into
a SymptomNotFoundError instead of returning it unchanged, and the retry
policy then stops instead of retrying with a new transaction id. -/
theorem chaincode_notfound_matched_counterexample :
    matchSymptomDoesNotExistMessage (symptomDoesNotExistMessage "asset foo")
      = some "asset foo does not exist"
    ∧ handleError "tx1" (some (mkErr (symptomDoesNotExistMessage "asset foo")))
      = .symptomNotFound "asset foo does not exist" "tx1"
    ∧ getRetryAction (toJSErr (handleError "tx1"
        (some (mkErr (symptomDoesNotExistMessage "asset foo")))))
      = .ok .None := by
  refine ⟨by rfl, by rfl, by rfl⟩

/-- C9 amended: for every symptom id in which neither asset, Asset, nor the
transaction-lookup message head occurs, the message thrown by the chaincode
for a missing symptom (as ReadSymptom raises it) is matched by none of the
classifier patterns — the regexes look for the word asset, not symptom — so
handleError returns the raw error unchanged and getRetryAction retries it
with a new transaction id. -/
theorem chaincode_notfound_unclassified (st : WorldState) (id tid : String)
    (hmiss : getState st id = none)
    (h1 : containsSub "asset".toList (symptomDoesNotExistMessage id).toList = false)
    (h2 : containsSub "Asset".toList (symptomDoesNotExistMessage id).toList = false)
    (h3 : containsSub "Failed to get transaction with id ".toList
      (symptomDoesNotExistMessage id).toList = false) :
    ReadSymptom st id = .error (symptomDoesNotExistMessage id)
    ∧ matchSymptomDoesNotExistMessage (symptomDoesNotExistMessage id) = none
    ∧ handleError tid (some (mkErr (symptomDoesNotExistMessage id)))
      = .raw (some (mkErr (symptomDoesNotExistMessage id)))
    ∧ getRetryAction (some (mkErr (symptomDoesNotExistMessage id)))
      = .ok .WithNewTransactionId := by
  have hA := matchSymptomAlreadyExistsMessage_none (symptomDoesNotExistMessage id) h1 h2
  have hD := matchSymptomDoesNotExistMessage_none (symptomDoesNotExistMessage id) h1 h2
  have hT := matchTransactionDoesNotExistMessage_none (symptomDoesNotExistMessage id) h3
  refine ⟨?_, hD, ?_, ?_⟩
  · simp [ReadSymptom, hmiss]
  · have hE : isErrorLike (some (mkErr (symptomDoesNotExistMessage id))) = true := rfl
    have hm : (mkErr (symptomDoesNotExistMessage id)).message
        = .str (symptomDoesNotExistMessage id) := rfl
    simp [handleError, hE, hm, hA, hD, hT]
  · rfl

/-- Witness for the amended C9 at the ordinary id symptom3 over the empty
world state. -/
theorem chaincode_notfound_unclassified_witness :
    ReadSymptom [] "symptom3" = .error (symptomDoesNotExistMessage "symptom3")
    ∧ matchSymptomDoesNotExistMessage (symptomDoesNotExistMessage "symptom3") = none
    ∧ handleError "tx1" (some (mkErr (symptomDoesNotExistMessage "symptom3")))
      = .raw (some (mkErr (symptomDoesNotExistMessage "symptom3")))
    ∧ getRetryAction (some (mkErr (symptomDoesNotExistMessage "symptom3")))
      = .ok .WithNewTransactionId :=
  chaincode_notfound_unclassified [] "symptom3" "tx1" rfl (by decide) (by decide) (by decide)

/-- C10: CreateSymptom succeeds on every ledger state and id — it performs
no existence check, so it never fails with an already-exists error — and
the stored record under that id afterwards carries exactly the new field
values (silent overwrite), while every other key is untouched. -/
theorem createSymptom_unconditional (st : WorldState) (id comment owner : String) (ts : Int) :
    (∃ st2, CreateSymptom st id comment owner ts = Except.ok st2)
    ∧ (∀ st2, CreateSymptom st id comment owner ts = Except.ok st2 →
      getState st2 id = some
        { ID := id, Comment := comment, Owner := owner, SymptomTimestamp := ts }
      ∧ ∀ k, ¬ k = id → getState st2 k = getState st k) := by
  constructor
  · exact ⟨_, rfl⟩
  · intro st2 h
    have h2 : putState st id
        { ID := id, Comment := comment, Owner := owner, SymptomTimestamp := ts } = st2 := by
      simpa [CreateSymptom] using h
    subst h2
    constructor
    · simp [getState, putState]
    · intro k hk
      have hne : (id == k) = false := beq_eq_false_iff_ne.mpr (fun hh => hk hh.symm)
      simp [getState, putState, hne]

/-- Witness for C10: creating over an existing id succeeds and overwrites. -/
theorem createSymptom_unconditional_witness :
    ∃ st2, CreateSymptom
        [("s1", { ID := "s1", Comment := "old", Owner := "o1", SymptomTimestamp := 1 })]
        "s1" "new" "o2" 2 = Except.ok st2
      ∧ getState st2 "s1"
        = some { ID := "s1", Comment := "new", Owner := "o2", SymptomTimestamp := 2 } := by
  have h := createSymptom_unconditional
    [("s1", { ID := "s1", Comment := "old", Owner := "o1", SymptomTimestamp := 1 })]
    "s1" "new" "o2" 2
  obtain ⟨st2, hok⟩ := h.1
  exact ⟨st2, hok, (h.2 st2 hok).1⟩
